import Mathlib

/-!
Shallow embedding of the packagedetector program (Go).

The embedded code is the detection-and-notification control loop:
`isAwake`, `isCropSpecified`, the configuration `initialize` methods,
and `processImage` together with its dispatch helpers `emailResult` and
`sendWebHook`.  External collaborators (HTTP fetch, the crop/encode
step, the vision API call, credential acquisition, SMTP, the webhook
POST transport) are injected as explicit environments whose outcomes
the embedded control flow inspects, exactly where the Go code inspects
the corresponding `err` values.

Time is modelled as an integer number of minutes on the Go time axis:
the zero value of `time.Time` (the "never notified" initial state of
`lastNotificationSent`) is the integer 0, and `time.Now()` during a
cycle is an integer `now`.  Classification confidences (Go `float64`)
are modelled as rationals.
-/

namespace PackageDetector

/-- Crop rectangle coordinates, from `type rectCfg struct`. -/
structure rectCfg where
  X1 : Int
  Y1 : Int
  X2 : Int
  Y2 : Int
deriving DecidableEq

/-- Run-loop configuration, from `type runCfg struct`. -/
structure runCfg where
  Interval : Int
  SleepHour : Int
  WakeHour : Int
  NotifyOnStart : Bool
  NotifyMuteMinutes : Int
deriving DecidableEq

/-- Image-source configuration, from `type imageCfg struct`. -/
structure imageCfg where
  URL : String
  CacheFile : String
  ArchivePath : String
  Rect : rectCfg
deriving DecidableEq

/-- Motion-trigger configuration, from `type motionCfg struct`. -/
structure motionCfg where
  LogPath : String
  CameraID : String
deriving DecidableEq

/-- Vision-service configuration, from `type visionCfg struct`. -/
structure visionCfg where
  AuthFile : String
  URL : String
  PackageLabel : String
  Threshold : Int
deriving DecidableEq

/-- Email channel configuration, from `type emailCfg struct`. -/
structure emailCfg where
  From : String
  To : List String
  Server : String
  Port : Int
  User : String
  Pass : String
deriving DecidableEq

/-- Webhook channel configuration, from `type webhookCfg struct`. -/
structure webhookCfg where
  URL : String
deriving DecidableEq

/-- The whole configuration file, from `type configuration struct`. -/
structure configuration where
  Run : runCfg
  Motion : motionCfg
  Image : imageCfg
  Vision : visionCfg
  Email : emailCfg
  WebHook : webhookCfg
deriving DecidableEq

/-- A wall-clock instant as the Go code observes it (`time.Time`
broken into calendar components; `Hour()` is the `hour` field). -/
structure Time where
  year : Int
  month : Int
  day : Int
  hour : Int
  minute : Int
  second : Int
deriving DecidableEq

/-- `func isAwake(now time.Time, sleepHour int, wakeHour int) bool`
(main.go); the method form `func (r runCfg) isAwake() bool` has the
same body with `r.SleepHour`/`r.WakeHour` for the two arguments. -/
def isAwake (now : Time) (sleepHour wakeHour : Int) : Bool :=
  let hour := now.hour
  if (sleepHour > wakeHour) ∧ (hour < sleepHour ∧ hour ≥ wakeHour) then
    true
  else if (sleepHour < wakeHour) ∧ (hour < sleepHour ∨ hour ≥ wakeHour) then
    true
  else if sleepHour = wakeHour then
    true
  else
    false

/-- `func (i imageCfg) isCropSpecified() bool`. -/
def imageCfg.isCropSpecified (i : imageCfg) : Bool :=
  decide (i.Rect.X1 > 0) ||
  decide (i.Rect.Y1 > 0) ||
  decide (i.Rect.X2 > 0) ||
  decide (i.Rect.Y2 > 0)

/-- One element of `visionResponse.Payload`: a classification result
with a display name and a confidence score. -/
structure payloadItem where
  Score : ℚ
  DisplayName : String
deriving DecidableEq

/-- Outcomes of the external send operations consulted by one
notification dispatch: `DialAndSend` for email, and the three
fallible steps of `sendWebHook` (`json.Marshal`, `http.NewRequest`,
`client.Do`). -/
structure dispatchEnv where
  emailSendErr : Bool
  webhookMarshalErr : Bool
  webhookReqErr : Bool
  webhookDoErr : Bool
deriving DecidableEq

/-- Observable actions of one detection cycle, in program order:
entry into the matched (Detected) branch, entry into the forced
(`forceNotify`) branch, the assignment to `lastNotificationSent`,
and the outcome of each channel call. -/
inductive Ev where
  | detectedEntry (label : String) (score : ℚ)
  | forcedEntry (label : String) (score : ℚ)
  | muteUpdate (t : Int)
  | emailOk
  | emailErrLogged
  | webhookOk
  | webhookErrLogged
  | webhookPanicked
deriving DecidableEq

/-- `func emailResult(subject string, body string)`: on a
`DialAndSend` error the function logs the error and returns; it never
panics and never touches `lastNotificationSent`. -/
def emailResult (d : dispatchEnv) : List Ev :=
  if d.emailSendErr then [Ev.emailErrLogged] else [Ev.emailOk]

/-- `func sendWebHook(score float64, label string, image []byte)`:
a `json.Marshal` or `http.NewRequest` error is logged and the
function returns; a `client.Do` error is passed to `panic`. -/
def sendWebHook (d : dispatchEnv) : List Ev :=
  if d.webhookMarshalErr then [Ev.webhookErrLogged]
  else if d.webhookReqErr then [Ev.webhookErrLogged]
  else if d.webhookDoErr then [Ev.webhookPanicked]
  else [Ev.webhookOk]

/-- The channel fan-out shared by both notification branches of
`processImage`: email if `config.Email.Server != ""`, webhook if
`config.WebHook.URL != ""`. -/
def dispatchChannels (cfg : configuration) (d : dispatchEnv) : List Ev :=
  (if cfg.Email.Server ≠ "" then emailResult d else []) ++
  (if cfg.WebHook.URL ≠ "" then sendWebHook d else [])

/-- One iteration of the `for _, p := range resp.Payload` loop in
`processImage`: the matched test
`p.DisplayName == config.Vision.PackageLabel && (p.Score*100 > Threshold)`,
the mute test `time.Now().After(lastNotificationSent.Add(mute))`,
the assignment `lastNotificationSent = time.Now()`, and the channel
dispatches; the `else if forceNotify` branch dispatches without
touching the mute state.  Returns the new `lastNotificationSent`
and the emitted actions. -/
def processItemFull (cfg : configuration) (d : dispatchEnv) (forceNotify : Bool)
    (now last : Int) (p : payloadItem) : Int × List Ev :=
  if p.DisplayName = cfg.Vision.PackageLabel ∧
      p.Score * 100 > (cfg.Vision.Threshold : ℚ) then
    if now > last + cfg.Run.NotifyMuteMinutes then
      (now, Ev.detectedEntry p.DisplayName p.Score :: Ev.muteUpdate now ::
        dispatchChannels cfg d)
    else
      (last, [])
  else if forceNotify then
    (last, Ev.forcedEntry p.DisplayName p.Score :: dispatchChannels cfg d)
  else
    (last, [])

/-- `true` exactly on the event recording a `panic` (an unrecovered
panic aborts the Go process). -/
def isPanicEv : Ev → Bool
  | Ev.webhookPanicked => true
  | _ => false

/-- The whole `for _, p := range resp.Payload` loop: items are
processed in order, threading `lastNotificationSent`; a panic inside
an iteration aborts the loop (and the process), so later items are
not processed. -/
def processPayloadFull (cfg : configuration) (d : dispatchEnv) (forceNotify : Bool)
    (now : Int) : Int → List payloadItem → Int × List Ev
  | last, [] => (last, [])
  | last, p :: rest =>
    let r1 := processItemFull cfg d forceNotify now last p
    if r1.2.any isPanicEv then
      r1
    else
      let r2 := processPayloadFull cfg d forceNotify now r1.1 rest
      (r2.1, r1.2 ++ r2.2)

/-- Outcomes of the external pipeline steps consulted by one run of
`processImage`: `getGoogleToken`, `fetchImage` (the bytes left in
`buf`), `cropImage` (given the global rectangle `r` and the buffered
bytes), `evaluateImageJSON` (classification of the submitted bytes),
and the dispatch outcomes. -/
structure cycleEnv where
  token : Except String String
  fetch : Except String (List Nat)
  crop : rectCfg → List Nat → Except String (List Nat)
  classify : List Nat → Except String (List payloadItem)
  dispatch : dispatchEnv

/-- Result of one `processImage` run: the final
`lastNotificationSent`, the emitted actions, the bytes submitted to
classification (none when the cycle aborted before the vision call),
and whether the cycle returned early after logging a step error. -/
structure cycleResult where
  lastSent : Int
  trace : List Ev
  classifyInput : Option (List Nat)
  aborted : Bool
deriving DecidableEq

/-- `func processImage(ctx context.Context, forceNotify bool)`:
token acquisition, image fetch, optional crop (only when
`config.Image.isCropSpecified()`), classification, then the payload
loop.  Each step error is logged and returns from the function. -/
def processImage (cfg : configuration) (env : cycleEnv) (rGlobal : rectCfg)
    (forceNotify : Bool) (now last : Int) : cycleResult :=
  match env.token with
  | Except.error _ => ⟨last, [], none, true⟩
  | Except.ok _ =>
  match env.fetch with
  | Except.error _ => ⟨last, [], none, true⟩
  | Except.ok bs =>
  match (if cfg.Image.isCropSpecified then env.crop rGlobal bs else Except.ok bs) with
  | Except.error _ => ⟨last, [], none, true⟩
  | Except.ok bs2 =>
  match env.classify bs2 with
  | Except.error _ => ⟨last, [], some bs2, true⟩
  | Except.ok items =>
    let res := processPayloadFull cfg env.dispatch forceNotify now last items
    ⟨res.1, res.2, some bs2, false⟩

/-- `true` exactly on a Detected-branch entry event. -/
def isDetectedEv : Ev → Bool
  | Ev.detectedEntry _ _ => true
  | _ => false

/-- `true` exactly on a forced-branch entry event. -/
def isForcedEv : Ev → Bool
  | Ev.forcedEntry _ _ => true
  | _ => false

/-- `true` on the events produced by channel dispatch calls. -/
def isDispatchEv : Ev → Bool
  | Ev.emailOk => true
  | Ev.emailErrLogged => true
  | Ev.webhookOk => true
  | Ev.webhookErrLogged => true
  | Ev.webhookPanicked => true
  | _ => false

/-- Whether a trace contains a Detected-branch entry. -/
def hasDetected (tr : List Ev) : Bool := tr.any isDetectedEv

/-- Number of forced-branch entries in a trace. -/
def forcedCount (tr : List Ev) : Nat := (tr.filter isForcedEv).length

/-- The matched test of the payload loop, as a boolean. -/
def matchedB (cfg : configuration) (p : payloadItem) : Bool :=
  decide (p.DisplayName = cfg.Vision.PackageLabel ∧
    p.Score * 100 > (cfg.Vision.Threshold : ℚ))

/-- `func image.Rect(x0, y0, x1, y1 int) Rectangle` from the Go
standard library: coordinates are swapped so that the rectangle is
well-formed. -/
def imageRect (rc : rectCfg) : rectCfg :=
  ⟨min rc.X1 rc.X2, min rc.Y1 rc.Y2, max rc.X1 rc.X2, max rc.Y1 rc.Y2⟩

/-- `func (e emailCfg) initialize()`: the receiver is a value, so the
`e.Port = 587` default is applied to a copy; the function returns
that final copy. -/
def emailCfgInit (e : emailCfg) : emailCfg :=
  if e.Port = 0 then { e with Port := 587 } else e

/-- `func (i imageCfg) initialize()`: value receiver; the `CacheFile`
default hits the copy.  `log.Fatalln` exits are `Except.error`.
`archiveExists` is the outcome of the `os.Stat(i.ArchivePath)` probe.
The only global effect is the assignment to `r` (returned here) when
the crop rectangle is specified. -/
def imageCfgInit (archiveExists : Bool) (i : imageCfg) :
    Except String (imageCfg × Option rectCfg) :=
  let i1 := if i.CacheFile = "" then { i with CacheFile := "./img.jpg" } else i
  if i1.ArchivePath ≠ "" ∧ archiveExists = false then
    Except.error "The specified ArchivePath does not exist."
  else if i1.URL = "" then
    Except.error "Please specify a valid imageURL in the configuration file."
  else
    Except.ok (i1, if i1.isCropSpecified then some (imageRect i1.Rect) else none)

/-- `func (v visionCfg) initialize()`: reads the global `config` and
exits fatally when a required field is empty. -/
def visionCfgInit (c : configuration) : Except String Unit :=
  if c.Vision.AuthFile = "" ∨ c.Vision.URL = "" then
    Except.error "Configuration must contain values for vision: authfile and vision: url"
  else
    Except.ok ()

/-- `func (w webhookCfg) initialize() {}`: empty body on a value
receiver. -/
def webhookCfgInit (w : webhookCfg) : webhookCfg := w

/-- The initialization sequence of `main`:
`config.Image.initialize(); config.Vision.initialize();
config.Email.initialize(); config.WebHook.initialize()`.  All four
methods take value receivers, so the copies they return are discarded
at each call site; the observable results are the fatal exits, the
derived rectangle `r`, and the (unchanged) global `config`. -/
def initAll (c : configuration) (archiveExists : Bool) :
    Except String (configuration × Option rectCfg) :=
  match imageCfgInit archiveExists c.Image with
  | Except.error e => Except.error e
  | Except.ok (_iCopy, rOpt) =>
    match visionCfgInit c with
    | Except.error e => Except.error e
    | Except.ok _ =>
      let _eCopy := emailCfgInit c.Email
      let _wCopy := webhookCfgInit c.WebHook
      Except.ok (c, rOpt)

/-! ### Concrete fixtures used by witnesses and counterexamples -/

/-- A configuration matching the spec's worked example: threshold 75,
target label "package", mute window 60 minutes, email enabled,
webhook disabled. -/
def cfgW : configuration :=
  { Run := { Interval := 0, SleepHour := 0, WakeHour := 0,
             NotifyOnStart := true, NotifyMuteMinutes := 60 },
    Motion := { LogPath := "", CameraID := "" },
    Image := { URL := "http://cam/snap.jpeg", CacheFile := "img.jpeg",
               ArchivePath := "", Rect := ⟨0, 0, 0, 0⟩ },
    Vision := { AuthFile := "a.json", URL := "http://vision",
                PackageLabel := "package", Threshold := 75 },
    Email := { From := "f@x", To := ["t@x"], Server := "smtp.x",
               Port := 587, User := "", Pass := "" },
    WebHook := { URL := "" } }

/-- Dispatch environment in which every external send succeeds. -/
def d0 : dispatchEnv := ⟨false, false, false, false⟩

/-- The spec's worked classification result:
`{label: "package", confidence: 0.80}`. -/
def itemW : payloadItem := ⟨4/5, "package"⟩

/-- Configuration with a crop rectangle configured. -/
def cfgC : configuration :=
  { cfgW with Image := { cfgW.Image with Rect := ⟨0, 0, 600, 400⟩ } }

/-- Configuration whose crop rectangle has a nonzero (negative)
coordinate. -/
def cfg6 : configuration :=
  { cfgW with Image := { cfgW.Image with Rect := ⟨-1, 0, 0, 0⟩ } }

/-- Cycle environment whose crop collaborator would return different
bytes, exposing whether cropping ran. -/
def env6 : cycleEnv :=
  ⟨Except.ok "tok", Except.ok [1, 2, 3], fun _ _ => Except.ok [9, 9],
    fun _ => Except.ok [], d0⟩

/-- The loaded configuration for the C9 witness: Port 0, empty
CacheFile. -/
def c9cfg : configuration :=
  { cfgW with
    Email := { cfgW.Email with Port := 0 },
    Image := { cfgW.Image with CacheFile := "" } }

/-! ### Helper lemmas -/

lemma emailResult_dispatchEv (d : dispatchEnv) :
    ∀ e ∈ emailResult d, isDispatchEv e = true := by
  unfold emailResult
  split_ifs <;> simp [isDispatchEv]

lemma sendWebHook_dispatchEv (d : dispatchEnv) :
    ∀ e ∈ sendWebHook d, isDispatchEv e = true := by
  unfold sendWebHook
  split_ifs <;> simp [isDispatchEv]

lemma dispatchChannels_dispatchEv (cfg : configuration) (d : dispatchEnv) :
    ∀ e ∈ dispatchChannels cfg d, isDispatchEv e = true := by
  unfold dispatchChannels
  intro e he
  rcases List.mem_append.mp he with h | h
  · split_ifs at h
    · exact emailResult_dispatchEv d e h
    · simp at h
  · split_ifs at h
    · exact sendWebHook_dispatchEv d e h
    · simp at h

lemma isDetectedEv_of_dispatchEv {e : Ev} (h : isDispatchEv e = true) :
    isDetectedEv e = false := by
  cases e <;> simp_all [isDispatchEv, isDetectedEv]

lemma isForcedEv_of_dispatchEv {e : Ev} (h : isDispatchEv e = true) :
    isForcedEv e = false := by
  cases e <;> simp_all [isDispatchEv, isForcedEv]

lemma dispatchChannels_no_detected (cfg : configuration) (d : dispatchEnv) :
    (dispatchChannels cfg d).any isDetectedEv = false := by
  rw [List.any_eq_false]
  intro e he
  simp [isDetectedEv_of_dispatchEv (dispatchChannels_dispatchEv cfg d e he)]

lemma dispatchChannels_no_forced (cfg : configuration) (d : dispatchEnv) :
    (dispatchChannels cfg d).any isForcedEv = false := by
  rw [List.any_eq_false]
  intro e he
  simp [isForcedEv_of_dispatchEv (dispatchChannels_dispatchEv cfg d e he)]

/-! ### Claim theorems -/

/-- C2: for every hour of the day, `isAwake` is total whenever
`sleepHour = wakeHour`; for `sleepHour > wakeHour` it holds exactly
on `[wakeHour, sleepHour)`; for `sleepHour < wakeHour` it holds
exactly on `[0, sleepHour) ∪ [wakeHour, 24)`. -/
theorem isAwake_cases (now : Time) (s w : Int) :
    (s = w → isAwake now s w = true) ∧
    (s > w → (isAwake now s w = true ↔ w ≤ now.hour ∧ now.hour < s)) ∧
    (s < w → (isAwake now s w = true ↔ now.hour < s ∨ w ≤ now.hour)) := by
  unfold isAwake
  refine ⟨fun he => ?_, fun hg => ?_, fun hl => ?_⟩ <;>
  · split_ifs <;> simp_all <;> omega

/-- Witness for C2 at the spec's example hours. -/
theorem isAwake_cases_witness :
    isAwake ⟨2026, 10, 11, 7, 30, 0⟩ 22 7 = true ∧
    isAwake ⟨2026, 10, 11, 23, 0, 0⟩ 22 7 = false ∧
    isAwake ⟨2026, 10, 11, 3, 0, 0⟩ 6 22 = true ∧
    isAwake ⟨2026, 10, 11, 12, 0, 0⟩ 6 22 = false ∧
    isAwake ⟨2026, 10, 11, 12, 0, 0⟩ 9 9 = true := by
  refine ⟨?_, by decide, by decide, by decide, by decide⟩
  exact (isAwake_cases ⟨2026, 10, 11, 7, 30, 0⟩ 22 7).2.1 (by decide)
    |>.mpr (by constructor <;> decide)

/-- C10: `isAwake` depends only on the hour of its time argument:
two instants with equal `Hour()` yield the same answer for the same
configured hours. -/
theorem isAwake_hour_determinism (n1 n2 : Time) (s w : Int)
    (h : n1.hour = n2.hour) : isAwake n1 s w = isAwake n2 s w := by
  unfold isAwake
  rw [h]

/-- Witness for C10: different date, minute and second, same hour. -/
theorem isAwake_hour_determinism_witness :
    isAwake ⟨2026, 1, 1, 9, 0, 0⟩ 22 7 = isAwake ⟨1999, 12, 31, 9, 59, 59⟩ 22 7 :=
  isAwake_hour_determinism ⟨2026, 1, 1, 9, 0, 0⟩ ⟨1999, 12, 31, 9, 59, 59⟩ 22 7 rfl

/-- C5: for a result carrying the target label, the match succeeds
exactly when `confidence*100` is strictly greater than the threshold;
at exact equality no Detected branch is entered, while any strictly
greater confidence (in particular threshold + 0.01) triggers when the
mute window is open. -/
theorem threshold_strict (cfg : configuration) (p : payloadItem)
    (hl : p.DisplayName = cfg.Vision.PackageLabel) :
    (matchedB cfg p = true ↔ p.Score * 100 > (cfg.Vision.Threshold : ℚ)) ∧
    (p.Score * 100 = (cfg.Vision.Threshold : ℚ) →
      ∀ d force now last,
        hasDetected (processItemFull cfg d force now last p).2 = false) ∧
    (p.Score * 100 = (cfg.Vision.Threshold : ℚ) + 1/100 →
      ∀ d now last, now > last + cfg.Run.NotifyMuteMinutes →
        hasDetected (processItemFull cfg d false now last p).2 = true) := by
  refine ⟨?_, ?_, ?_⟩
  · unfold matchedB
    simp [hl]
  · intro heq d force now last
    have hnot : ¬ (p.DisplayName = cfg.Vision.PackageLabel ∧
        p.Score * 100 > (cfg.Vision.Threshold : ℚ)) := by
      rintro ⟨-, hgt⟩
      exact absurd heq (ne_of_gt hgt)
    unfold processItemFull
    rw [if_neg hnot]
    split_ifs
    · simp only [hasDetected, List.any_cons, isForcedEv, isDetectedEv,
        Bool.false_or]
      exact dispatchChannels_no_detected cfg d
    · rfl
  · intro heq d now last hmute
    have hgt : p.Score * 100 > (cfg.Vision.Threshold : ℚ) := by
      rw [heq]
      linarith
    unfold processItemFull
    rw [if_pos ⟨hl, hgt⟩, if_pos hmute]
    simp [hasDetected, isDetectedEv]

/-- Witness for C5 with threshold 75: confidence 0.75 (exactly 75%)
does not enter the Detected branch, confidence 0.7501 does. -/
theorem threshold_strict_witness :
    hasDetected (processItemFull cfgW d0 false 1000000 0 ⟨75/100, "package"⟩).2
        = false ∧
    hasDetected (processItemFull cfgW d0 false 1000000 0 ⟨7501/10000, "package"⟩).2
        = true := by
  constructor
  · exact (threshold_strict cfgW ⟨75/100, "package"⟩ rfl).2.1
      (by norm_num [cfgW]) d0 false 1000000 0
  · exact (threshold_strict cfgW ⟨7501/10000, "package"⟩ rfl).2.2
      (by norm_num [cfgW]) d0 1000000 0 (by norm_num [cfgW])

/-- C1: for a matching result above threshold, the Detected branch is
entered exactly when the current time is strictly after
`lastNotifiedAt + muteMinutes`; on entry `lastNotifiedAt` becomes the
current time, otherwise it is unchanged; with `lastNotifiedAt` at the
Go zero value (0 here) and a mute window shorter than the clock
reading, the branch is entered. -/
theorem mute_window (cfg : configuration) (d : dispatchEnv) (force : Bool)
    (now last : Int) (p : payloadItem)
    (hl : p.DisplayName = cfg.Vision.PackageLabel)
    (hs : p.Score * 100 > (cfg.Vision.Threshold : ℚ)) :
    (hasDetected (processItemFull cfg d force now last p).2 = true
        ↔ now > last + cfg.Run.NotifyMuteMinutes) ∧
    ((processItemFull cfg d force now last p).1
        = if now > last + cfg.Run.NotifyMuteMinutes then now else last) ∧
    (last = 0 → cfg.Run.NotifyMuteMinutes < now →
      hasDetected (processItemFull cfg d force now last p).2 = true) := by
  unfold processItemFull
  rw [if_pos ⟨hl, hs⟩]
  split_ifs with hm
  · refine ⟨?_, rfl, fun _ _ => ?_⟩ <;>
      simp [hasDetected, isDetectedEv, hm]
  · refine ⟨by simp [hasDetected, hm], rfl, fun h0 hlt => ?_⟩
    exact absurd (by omega : now > last + cfg.Run.NotifyMuteMinutes) hm

/-- Witness for C1: the spec's mute-window scenario with threshold
75, label "package", confidence 0.80, mute 60 minutes.  At clock
reading 1000000 with the mute state at the zero value, the Detected
branch fires and the state becomes 1000000; 30 minutes later it does
not fire; 61 minutes later it fires again. -/
theorem mute_window_witness :
    hasDetected (processItemFull cfgW d0 false 1000000 0 itemW).2 = true ∧
    (processItemFull cfgW d0 false 1000000 0 itemW).1 = 1000000 ∧
    hasDetected (processItemFull cfgW d0 false 1000030 1000000 itemW).2 = false ∧
    hasDetected (processItemFull cfgW d0 false 1000061 1000000 itemW).2 = true := by
  have hl : itemW.DisplayName = cfgW.Vision.PackageLabel := rfl
  have hs : itemW.Score * 100 > (cfgW.Vision.Threshold : ℚ) := by
    norm_num [cfgW, itemW]
  refine ⟨(mute_window cfgW d0 false 1000000 0 itemW hl hs).1.mpr (by decide),
    ?_, ?_, (mute_window cfgW d0 false 1000061 1000000 itemW hl hs).1.mpr (by decide)⟩
  · rw [(mute_window cfgW d0 false 1000000 0 itemW hl hs).2.1]
    norm_num [cfgW]
  · have h := (mute_window cfgW d0 false 1000030 1000000 itemW hl hs).1
    cases hc : hasDetected (processItemFull cfgW d0 false 1000030 1000000 itemW).2
    · rfl
    · exact absurd (h.mp hc) (by decide)

/-- C7: for a Detected decision, the `lastNotificationSent`
assignment is the first side effect of the branch — every dispatch
event comes after it in the trace — and the committed value is the
current time for every dispatch environment, failing sends
included. -/
theorem mute_update_first (cfg : configuration) (d : dispatchEnv)
    (now last : Int) (p : payloadItem)
    (hl : p.DisplayName = cfg.Vision.PackageLabel)
    (hs : p.Score * 100 > (cfg.Vision.Threshold : ℚ))
    (hm : now > last + cfg.Run.NotifyMuteMinutes) :
    (processItemFull cfg d false now last p).1 = now ∧
    ∃ rest, (processItemFull cfg d false now last p).2
        = Ev.detectedEntry p.DisplayName p.Score :: Ev.muteUpdate now :: rest ∧
      ∀ e ∈ rest, isDispatchEv e = true := by
  unfold processItemFull
  rw [if_pos ⟨hl, hs⟩, if_pos hm]
  exact ⟨rfl, dispatchChannels cfg d, rfl, dispatchChannels_dispatchEv cfg d⟩

/-- Witness for C7: a failing email send; the mute state still holds
the committed time and the mute update precedes the dispatch. -/
theorem mute_update_first_witness :
    (processItemFull cfgW ⟨true, false, false, false⟩ false 1000000 0 itemW).1
        = 1000000 ∧
    ∃ rest, (processItemFull cfgW ⟨true, false, false, false⟩ false 1000000 0 itemW).2
        = Ev.detectedEntry itemW.DisplayName itemW.Score ::
            Ev.muteUpdate 1000000 :: rest ∧
      ∀ e ∈ rest, isDispatchEv e = true :=
  mute_update_first cfgW ⟨true, false, false, false⟩ 1000000 0 itemW rfl
    (by norm_num [cfgW, itemW]) (by decide)

lemma processItemFull_no_panic (cfg : configuration) (d : dispatchEnv)
    (force : Bool) (now last : Int) (p : payloadItem)
    (hnp : (dispatchChannels cfg d).any isPanicEv = false) :
    (processItemFull cfg d force now last p).2.any isPanicEv = false := by
  unfold processItemFull
  split_ifs <;> simp_all [isPanicEv]

lemma forcedCount_append (l1 l2 : List Ev) :
    forcedCount (l1 ++ l2) = forcedCount l1 + forcedCount l2 := by
  simp [forcedCount, List.filter_append]

lemma forcedCount_dispatchChannels (cfg : configuration) (d : dispatchEnv) :
    forcedCount (dispatchChannels cfg d) = 0 := by
  unfold forcedCount
  rw [List.length_eq_zero, List.filter_eq_nil_iff]
  intro a ha
  simp [isForcedEv_of_dispatchEv (dispatchChannels_dispatchEv cfg d a ha)]

lemma forcedCount_cons (e : Ev) (l : List Ev) :
    forcedCount (e :: l) = (if isForcedEv e = true then 1 else 0) + forcedCount l := by
  simp only [forcedCount, List.filter_cons]
  split_ifs <;> simp [List.length_cons] <;> omega

lemma forcedCount_processItemFull (cfg : configuration) (d : dispatchEnv)
    (force : Bool) (now last : Int) (p : payloadItem) :
    forcedCount (processItemFull cfg d force now last p).2
      = if force && ! matchedB cfg p then 1 else 0 := by
  unfold processItemFull
  by_cases h1 : p.DisplayName = cfg.Vision.PackageLabel ∧
      p.Score * 100 > (cfg.Vision.Threshold : ℚ)
  · have hb : matchedB cfg p = true := by unfold matchedB; exact decide_eq_true h1
    rw [if_pos h1, hb]
    simp only [Bool.not_true, Bool.and_false, Bool.false_eq_true, if_false]
    split_ifs
    · simp [forcedCount_cons, isForcedEv, forcedCount_dispatchChannels]
    · simp [forcedCount]
  · have hb : matchedB cfg p = false := by unfold matchedB; exact decide_eq_false h1
    rw [if_neg h1, hb]
    cases force
    · simp [forcedCount]
    · simp [forcedCount_cons, isForcedEv, forcedCount_dispatchChannels]

/-- C3 counterexample: with `forceNotify` true and no dispatch panic,
an empty classification payload yields zero forced notifications, and
a payload of two non-matching results yields two — never exactly one
per cycle. -/
theorem forced_cycle_counterexample :
    forcedCount (processPayloadFull cfgW d0 true 1000000 0 []).2 = 0 ∧
    forcedCount (processPayloadFull cfgW d0 true 1000000 0
        [⟨1/10, "person"⟩, ⟨1/5, "car"⟩]).2 = 2 := by
  constructor
  · norm_num [processPayloadFull, forcedCount]
  · have hnp : (dispatchChannels cfgW d0).any isPanicEv = false := by decide
    have hm1 : matchedB cfgW ⟨1/10, "person"⟩ = false := by
      unfold matchedB
      exact decide_eq_false (by norm_num [cfgW])
    have hm2 : matchedB cfgW ⟨1/5, "car"⟩ = false := by
      unfold matchedB
      exact decide_eq_false (by norm_num [cfgW])
    simp only [processPayloadFull]
    rw [processItemFull_no_panic cfgW d0 true 1000000 0 _ hnp,
        processItemFull_no_panic cfgW d0 true 1000000 _ _ hnp]
    simp only [Bool.false_eq_true, if_false]
    rw [forcedCount_append, forcedCount_append,
        forcedCount_processItemFull, forcedCount_processItemFull, hm1, hm2]
    simp [forcedCount]

/-- C3 amended: in a cycle with `forceNotify` true whose dispatches
do not panic, the number of ForcedStartup notifications equals the
number of payload results that do not match — zero for an empty
payload, one per non-matching result — rather than exactly one per
cycle. -/
theorem forced_count_per_result (cfg : configuration) (d : dispatchEnv)
    (now : Int)
    (hnp : (dispatchChannels cfg d).any isPanicEv = false) :
    ∀ (items : List payloadItem) (last : Int),
      forcedCount (processPayloadFull cfg d true now last items).2
        = (items.filter fun p => ! matchedB cfg p).length := by
  intro items
  induction items with
  | nil => intro last; simp [processPayloadFull, forcedCount]
  | cons p rest ih =>
    intro last
    simp only [processPayloadFull]
    rw [processItemFull_no_panic cfg d true now last p hnp]
    simp only [Bool.false_eq_true, if_false]
    rw [forcedCount_append, forcedCount_processItemFull, ih, List.filter_cons]
    cases hmb : matchedB cfg p <;> simp [hmb] <;> omega

/-- Witness for C3 amended: one matching and two non-matching
results give exactly two forced notifications. -/
theorem forced_count_per_result_witness :
    forcedCount (processPayloadFull cfgW d0 true 1000000 0
        [⟨1/10, "person"⟩, itemW, ⟨1/5, "car"⟩]).2
      = ([(⟨1/10, "person"⟩ : payloadItem), itemW, ⟨1/5, "car"⟩].filter
          fun p => ! matchedB cfgW p).length :=
  forced_count_per_result cfgW d0 1000000 (by decide)
    [⟨1/10, "person"⟩, itemW, ⟨1/5, "car"⟩] 0

/-- Configuration with both email and webhook channels enabled. -/
def cfgP : configuration := { cfgW with WebHook := ⟨"http://hook"⟩ }

/-- Dispatch environment whose only failure is the webhook HTTP
transport call (`client.Do`). -/
def dDoErr : dispatchEnv := ⟨false, false, false, true⟩

/-- C4 counterexample: a webhook HTTP transport error is not logged
as a per-channel failure — it panics, aborting the process. -/
theorem webhook_panic_counterexample :
    Ev.webhookPanicked ∈ (processItemFull cfgP dDoErr false 1000000 0 itemW).2 ∧
    Ev.webhookErrLogged ∉ (processItemFull cfgP dDoErr false 1000000 0 itemW).2 := by
  have htr : (processItemFull cfgP dDoErr false 1000000 0 itemW).2
      = [Ev.detectedEntry "package" (4/5), Ev.muteUpdate 1000000,
         Ev.emailOk, Ev.webhookPanicked] := by
    norm_num [processItemFull, cfgP, cfgW, dDoErr, itemW, dispatchChannels,
      emailResult, sendWebHook] <;> decide
  rw [htr]
  exact ⟨by decide, by decide⟩

/-- C4 amended: an email send failure is logged and does not prevent
the webhook attempt; a webhook marshal failure or request-creation
failure is likewise logged and aborts only the webhook send (no
panic, the cycle survives); but the webhook HTTP transport error
(reached only when marshal and request creation succeed) panics the
process instead of being logged. -/
theorem channel_independence_amended (cfg : configuration) (d : dispatchEnv)
    (now last : Int) (p : payloadItem)
    (hl : p.DisplayName = cfg.Vision.PackageLabel)
    (hs : p.Score * 100 > (cfg.Vision.Threshold : ℚ))
    (hm : now > last + cfg.Run.NotifyMuteMinutes)
    (he : cfg.Email.Server ≠ "") (hw : cfg.WebHook.URL ≠ "")
    (hef : d.emailSendErr = true) :
    Ev.emailErrLogged ∈ (processItemFull cfg d false now last p).2 ∧
    (d.webhookMarshalErr = true →
      Ev.webhookErrLogged ∈ (processItemFull cfg d false now last p).2 ∧
      Ev.webhookPanicked ∉ (processItemFull cfg d false now last p).2) ∧
    (d.webhookMarshalErr = false → d.webhookReqErr = true →
      Ev.webhookErrLogged ∈ (processItemFull cfg d false now last p).2 ∧
      Ev.webhookPanicked ∉ (processItemFull cfg d false now last p).2) ∧
    (d.webhookMarshalErr = false → d.webhookReqErr = false →
      d.webhookDoErr = false →
      Ev.webhookOk ∈ (processItemFull cfg d false now last p).2 ∧
      Ev.webhookPanicked ∉ (processItemFull cfg d false now last p).2) ∧
    (d.webhookMarshalErr = false → d.webhookReqErr = false →
      d.webhookDoErr = true →
      Ev.webhookPanicked ∈ (processItemFull cfg d false now last p).2) := by
  unfold processItemFull dispatchChannels emailResult sendWebHook
  rw [if_pos ⟨hl, hs⟩, if_pos hm, if_pos he, if_pos hw]
  cases hwm : d.webhookMarshalErr <;> cases hwr : d.webhookReqErr <;>
    cases hdo : d.webhookDoErr <;> simp [hef, hwm, hwr, hdo]

/-- Witness for C4 amended, with the email send failing throughout:
a marshal failure and a request-creation failure are each logged with
no panic, while a transport failure panics; the email failure is
logged in every case. -/
theorem channel_independence_amended_witness :
    (Ev.emailErrLogged ∈
        (processItemFull cfgP ⟨true, true, false, false⟩ false 1000000 0 itemW).2 ∧
      Ev.webhookErrLogged ∈
        (processItemFull cfgP ⟨true, true, false, false⟩ false 1000000 0 itemW).2 ∧
      Ev.webhookPanicked ∉
        (processItemFull cfgP ⟨true, true, false, false⟩ false 1000000 0 itemW).2) ∧
    (Ev.emailErrLogged ∈
        (processItemFull cfgP ⟨true, false, true, false⟩ false 1000000 0 itemW).2 ∧
      Ev.webhookErrLogged ∈
        (processItemFull cfgP ⟨true, false, true, false⟩ false 1000000 0 itemW).2 ∧
      Ev.webhookPanicked ∉
        (processItemFull cfgP ⟨true, false, true, false⟩ false 1000000 0 itemW).2) ∧
    (Ev.emailErrLogged ∈
        (processItemFull cfgP ⟨true, false, false, true⟩ false 1000000 0 itemW).2 ∧
      Ev.webhookPanicked ∈
        (processItemFull cfgP ⟨true, false, false, true⟩ false 1000000 0 itemW).2) := by
  have hs : itemW.Score * 100 > (cfgP.Vision.Threshold : ℚ) := by
    norm_num [cfgP, cfgW, itemW]
  have h1 := channel_independence_amended cfgP ⟨true, true, false, false⟩
    1000000 0 itemW rfl hs (by decide) (by decide) (by decide) rfl
  have h2 := channel_independence_amended cfgP ⟨true, false, true, false⟩
    1000000 0 itemW rfl hs (by decide) (by decide) (by decide) rfl
  have h3 := channel_independence_amended cfgP ⟨true, false, false, true⟩
    1000000 0 itemW rfl hs (by decide) (by decide) (by decide) rfl
  exact ⟨⟨h1.1, (h1.2.1 rfl).1, (h1.2.1 rfl).2⟩,
    ⟨h2.1, (h2.2.2.1 rfl rfl).1, (h2.2.2.1 rfl rfl).2⟩,
    ⟨h3.1, h3.2.2.2.2 rfl rfl rfl⟩⟩

/-- C8: a failure of any pipeline step — credential acquisition,
image fetch, crop, or classification — makes `processImage` return
after logging, with no notification event, the mute state unchanged,
and (for the first three) the classification never invoked; the later
steps' behavior is quantified over, so the result does not depend on
them. -/
theorem step_failure_aborts (cfg : configuration) (rG : rectCfg) (force : Bool)
    (now last : Int) :
    (∀ (e : String) fe cr cl dsp,
      processImage cfg ⟨Except.error e, fe, cr, cl, dsp⟩ rG force now last
        = ⟨last, [], none, true⟩) ∧
    (∀ (t e : String) cr cl dsp,
      processImage cfg ⟨Except.ok t, Except.error e, cr, cl, dsp⟩ rG force now last
        = ⟨last, [], none, true⟩) ∧
    (∀ (t : String) bs cr (e : String) cl dsp,
      cfg.Image.isCropSpecified = true → cr rG bs = Except.error e →
      processImage cfg ⟨Except.ok t, Except.ok bs, cr, cl, dsp⟩ rG force now last
        = ⟨last, [], none, true⟩) ∧
    (∀ (t : String) bs cr cl dsp bs2 (e : String),
      (if cfg.Image.isCropSpecified then cr rG bs else Except.ok bs)
          = Except.ok bs2 →
      cl bs2 = Except.error e →
      processImage cfg ⟨Except.ok t, Except.ok bs, cr, cl, dsp⟩ rG force now last
        = ⟨last, [], some bs2, true⟩) := by
  refine ⟨fun e fe cr cl dsp => rfl, fun t e cr cl dsp => rfl,
    fun t bs cr e cl dsp hcs hcr => ?_, fun t bs cr cl dsp bs2 e hok hcl => ?_⟩
  · simp [processImage, hcs, hcr]
  · simp [processImage, hok, hcl]

/-- Witness for C8: each of the four step failures on a concrete
configuration aborts with an empty trace and the mute state intact. -/
theorem step_failure_aborts_witness :
    processImage cfgW ⟨Except.error "no token", Except.ok [1],
        fun _ b => Except.ok b, fun _ => Except.ok [itemW], d0⟩
        ⟨0, 0, 0, 0⟩ false 1000000 3 = ⟨3, [], none, true⟩ ∧
    processImage cfgW ⟨Except.ok "tok", Except.error "fetch failed",
        fun _ b => Except.ok b, fun _ => Except.ok [itemW], d0⟩
        ⟨0, 0, 0, 0⟩ false 1000000 3 = ⟨3, [], none, true⟩ ∧
    processImage cfgC ⟨Except.ok "tok", Except.ok [1, 2],
        fun _ _ => Except.error "crop failed", fun _ => Except.ok [itemW], d0⟩
        ⟨0, 0, 600, 400⟩ false 1000000 3 = ⟨3, [], none, true⟩ ∧
    processImage cfgW ⟨Except.ok "tok", Except.ok [1, 2],
        fun _ b => Except.ok b, fun _ => Except.error "vision failed", d0⟩
        ⟨0, 0, 0, 0⟩ false 1000000 3 = ⟨3, [], some [1, 2], true⟩ := by
  refine ⟨(step_failure_aborts cfgW ⟨0, 0, 0, 0⟩ false 1000000 3).1 _ _ _ _ _,
    (step_failure_aborts cfgW ⟨0, 0, 0, 0⟩ false 1000000 3).2.1 _ _ _ _ _,
    (step_failure_aborts cfgC ⟨0, 0, 600, 400⟩ false 1000000 3).2.2.1
      "tok" [1, 2] _ "crop failed" _ d0 (by decide) rfl,
    (step_failure_aborts cfgW ⟨0, 0, 0, 0⟩ false 1000000 3).2.2.2
      "tok" [1, 2] _ _ d0 [1, 2] "vision failed" rfl rfl⟩

/-- C6 counterexample: the rectangle (-1, 0, 0, 0) has a nonzero
coordinate, yet `isCropSpecified` is false and the fetched bytes
reach classification uncropped — "any nonzero coordinate enables
cropping" fails for negative coordinates. -/
theorem crop_nonzero_counterexample :
    cfg6.Image.Rect.X1 ≠ 0 ∧
    cfg6.Image.isCropSpecified = false ∧
    (processImage cfg6 env6 ⟨-1, 0, 0, 0⟩ false 1000000 0).classifyInput
      = some [1, 2, 3] := by
  refine ⟨by decide, by decide, rfl⟩

/-- C6 amended: an all-zero rectangle disables cropping and the
fetched bytes are classified unmodified; cropping is enabled exactly
when some coordinate is strictly positive (not merely nonzero). -/
theorem crop_unset_amended :
    (∀ i : imageCfg, i.Rect = ⟨0, 0, 0, 0⟩ → i.isCropSpecified = false) ∧
    (∀ i : imageCfg, i.isCropSpecified = true ↔
      0 < i.Rect.X1 ∨ 0 < i.Rect.Y1 ∨ 0 < i.Rect.X2 ∨ 0 < i.Rect.Y2) ∧
    (∀ (cfg : configuration) (env : cycleEnv) (rG : rectCfg) (force : Bool)
        (now last : Int) (t : String) (bs : List Nat),
      cfg.Image.isCropSpecified = false →
      env.token = Except.ok t → env.fetch = Except.ok bs →
      (processImage cfg env rG force now last).classifyInput = some bs) := by
  refine ⟨fun i h => ?_, fun i => ?_, ?_⟩
  · simp [imageCfg.isCropSpecified, h]
  · simp [imageCfg.isCropSpecified, or_assoc]
  · rintro cfg ⟨tok, fet, cr, cl, dsp⟩ rG force now last t bs hns htok hfet
    simp only at htok hfet
    subst htok
    subst hfet
    simp only [processImage, hns, Bool.false_eq_true, if_false]
    cases cl bs <;> rfl

/-- Witness for C6 amended: the all-zero rectangle of `cfgW` leaves
the fetched bytes untouched on their way to classification. -/
theorem crop_unset_amended_witness :
    cfgW.Image.isCropSpecified = false ∧
    (processImage cfgW ⟨Except.ok "tok", Except.ok [5, 6],
        fun _ _ => Except.ok [9, 9], fun _ => Except.ok [], d0⟩
      ⟨0, 0, 0, 0⟩ false 1000000 0).classifyInput = some [5, 6] := by
  refine ⟨by decide, ?_⟩
  exact crop_unset_amended.2.2 cfgW
    ⟨Except.ok "tok", Except.ok [5, 6], fun _ _ => Except.ok [9, 9],
      fun _ => Except.ok [], d0⟩
    ⟨0, 0, 0, 0⟩ false 1000000 0 "tok" [5, 6] (by decide) rfl rfl

/-- C9: the `initialize` methods take value receivers, so their
defaulting mutates discarded copies: after the initialization
sequence the configuration is unchanged field for field — a Port of 0
stays 0 (even though the method's own copy becomes 587) and an empty
CacheFile stays empty (even though the method's own copy becomes
"./img.jpg"). -/
theorem init_value_receivers (c : configuration) (ae : Bool)
    (c' : configuration) (rOpt : Option rectCfg)
    (h : initAll c ae = Except.ok (c', rOpt)) :
    c' = c ∧
    (c.Email.Port = 0 →
      (emailCfgInit c.Email).Port = 587 ∧ c'.Email.Port = 0) ∧
    (c.Image.CacheFile = "" →
      c'.Image.CacheFile = "" ∧
      ∀ i' ro, imageCfgInit ae c.Image = Except.ok (i', ro) →
        i'.CacheFile = "./img.jpg") := by
  have hc : c' = c := by
    unfold initAll at h
    rcases him : imageCfgInit ae c.Image with e | ⟨iCopy, ro⟩ <;> rw [him] at h
    · cases h
    · rcases hv : visionCfgInit c with e | u <;> rw [hv] at h
      · cases h
      · injection h with h1
        injection h1 with h2 h3
        exact h2.symm
  refine ⟨hc, fun hp => ⟨?_, by rw [hc]; exact hp⟩,
    fun hcf => ⟨by rw [hc]; exact hcf, fun i' ro him2 => ?_⟩⟩
  · unfold emailCfgInit
    rw [if_pos hp]
  · unfold imageCfgInit at him2
    rw [if_pos hcf] at him2
    dsimp only at him2
    split_ifs at him2 <;>
      first
      | exact Except.noConfusion him2
      | (injection him2 with h1
         injection h1 with h2 h3
         rw [← h2])

/-- Witness for C9: a loaded configuration with Port 0 and an empty
CacheFile survives initialization unchanged, while the discarded
method copies hold the defaults. -/
theorem init_value_receivers_witness :
    (emailCfgInit c9cfg.Email).Port = 587 ∧ c9cfg.Email.Port = 0 ∧
    c9cfg.Image.CacheFile = "" ∧
    ∀ i' ro, imageCfgInit true c9cfg.Image = Except.ok (i', ro) →
      i'.CacheFile = "./img.jpg" := by
  have h := init_value_receivers c9cfg true c9cfg none rfl
  exact ⟨(h.2.1 rfl).1, (h.2.1 rfl).2, rfl, (h.2.2 rfl).2⟩

end PackageDetector
